import Mathlib

/-!
Verification of the Home Assistant MCP server
(`ha_opencode/rootfs/opt/ha-mcp-server/index.js`).

The JavaScript source is shallowly embedded: pure functions become Lean
functions over `List`/`String`/`Option`/`ℚ`; the two reads of the wall
clock (`Date.now()` and `new Date().getHours()`) are made explicit as a
`JsTime` argument; the single piece of module-level mutable state
(`currentLogLevel`) becomes an explicit `ServerState` threaded through the
handler models; thrown JS errors become `Except.error`.

Modelling conventions, noted once here:
* JS `attributes?.x` accesses are modelled by an always-present
  `Attributes` record of `Option` fields (absent attributes = all `none`).
* `last_changed` is an ISO timestamp string in the source, consumed only
  via `new Date(s).getTime()`; it is modelled by that epoch-millisecond
  value (`Option Int`, `none` for an unparsable date, whose `NaN`
  comparisons are false).
* JS numbers that the code only compares and interpolates
  (`battery_level`) are modelled as `Int`; `parseFloat` results as `ℚ`.
* JS string truthiness (`""` falsy) is modelled by `jsTruthyOptStr` and
  `jsOrStr`.
* `String.toLower` only lower-cases ASCII, whereas JS `toLowerCase` is
  Unicode-aware; all string literals involved are ASCII.
-/

namespace HaMcp

/-- JS whitespace class `\s` restricted to the ASCII characters that occur
in practice: space, tab, newline, carriage return, form feed, vertical tab. -/
def jsWs (c : Char) : Bool :=
  c = ' ' || c = '\t' || c = '\n' || c = '\r' || c = '\x0c' || c = '\x0b'

/-- JS truthiness of an optional string: `undefined` and `""` are falsy. -/
def jsTruthyOptStr : Option String → Bool
  | none => false
  | some s => !(s == "")

/-- JS `a || d` for an optional string `a` and default `d`. -/
def jsOrStr (o : Option String) (d : String) : String :=
  match o with
  | none => d
  | some s => if s == "" then d else s

/-- Substring test on character lists: does `hay` contain `needle`?  -/
def jsIncludesL (needle : List Char) : List Char → Bool
  | [] => needle.isPrefixOf []
  | c :: cs => needle.isPrefixOf (c :: cs) || jsIncludesL needle cs

/-- JS `hay.includes(needle)`. -/
def jsIncludes (hay needle : String) : Bool :=
  jsIncludesL needle.data hay.data

theorem length_dropWhile_le (p : Char → Bool) (l : List Char) :
    (l.dropWhile p).length ≤ l.length := by
  induction l with
  | nil => simp [List.dropWhile]
  | cons c cs ih =>
    simp only [List.dropWhile]
    split
    · exact Nat.le_trans ih (Nat.le_succ _)
    · exact Nat.le_refl _

/-- JS `s.split(/\s+/)` on character lists: pieces between maximal
whitespace runs, including an empty leading piece when the string starts
with whitespace and an empty trailing piece when it ends with one
(`"".split(/\s+/)` is `[""]`).  `cur` accumulates the current piece in
reverse. -/
def jsSplitWsAux (cur : List Char) : List Char → List String
  | [] => [String.mk cur.reverse]
  | c :: cs =>
    if jsWs c then String.mk cur.reverse :: jsSplitWsAux [] (cs.dropWhile jsWs)
    else jsSplitWsAux (c :: cur) cs
termination_by cs => cs.length
decreasing_by
  · exact Nat.lt_succ_of_le (length_dropWhile_le jsWs cs)
  · exact Nat.lt_succ_self _

/-- JS `query.split(/\s+/)` on strings. -/
def jsSplitWs (s : String) : List String := jsSplitWsAux [] s.data

/-- Digit-list value, most significant first. -/
def digitsToNat (ds : List Char) : Nat :=
  ds.foldl (fun a c => a * 10 + (c.toNat - 48)) 0

/-- JS `parseFloat`: skip leading whitespace, optional sign, decimal
digits with an optional fractional part.  `none` models a `NaN` result.
Exponent notation and `Infinity` are not modelled; no input exercised by
the claims uses them. -/
def jsParseFloat (s : String) : Option ℚ :=
  let cs := s.data.dropWhile jsWs
  let signed : ℚ × List Char :=
    match cs with
    | c :: t => if c = '-' then (-1, t) else if c = '+' then (1, t) else (1, cs)
    | [] => (1, [])
  let intDs := signed.2.takeWhile Char.isDigit
  let rest := signed.2.dropWhile Char.isDigit
  let fracDs : List Char :=
    match rest with
    | c :: t => if c = '.' then t.takeWhile Char.isDigit else []
    | [] => []
  if intDs.isEmpty && fracDs.isEmpty then none
  else some (signed.1 * ((digitsToNat intDs : ℚ) + (digitsToNat fracDs : ℚ) / (10 : ℚ) ^ fracDs.length))

/-- JS `x.toFixed(1)` for the positive values it is applied to
(hours-open, always `> 4`): round to the nearest tenth, ties away from
zero. -/
def toFixed1 (q : ℚ) : String :=
  let n : ℤ := ⌊q * 10 + 1 / 2⌋
  toString (n / 10) ++ "." ++ toString (n % 10)

/-- The entity attributes the server reads (`attributes?.x`). -/
structure Attributes where
  friendly_name : Option String
  device_class : Option String
  battery_level : Option Int
  unit_of_measurement : Option String
  device_id : Option String
  area_id : Option String
deriving DecidableEq, Repr

/-- One element of the `/states` response as the server consumes it. -/
structure EntityState where
  entity_id : String
  state : String
  attributes : Attributes
  last_changed : Option Int
deriving DecidableEq, Repr

/-- An anomaly record produced by `detectAnomaly`. -/
structure Anomaly where
  entity_id : String
  reason : String
  severity : String
deriving DecidableEq, Repr

/-- The two wall-clock reads of `detectAnomaly`: `Date.now()` in epoch
milliseconds and `new Date().getHours()`. -/
structure JsTime where
  nowMs : Int
  hour : Nat
deriving DecidableEq, Repr

/-- `const [domain] = entity_id.split(".")`: the characters before the
first dot (the whole id when there is none). -/
def domainOf (s : EntityState) : String :=
  String.mk (s.entity_id.data.takeWhile (fun c => c ≠ '.'))

/-- `detectAnomaly`, battery rule. -/
def anomalyBattery (s : EntityState) : Option Anomaly :=
  match s.attributes.battery_level with
  | some b =>
    if b < 20 then
      some ⟨s.entity_id, "Low battery (" ++ toString b ++ "%)", "warning"⟩
    else none
  | none => none

/-- `detectAnomaly`, temperature rule. -/
def anomalyTemperature (s : EntityState) : Option Anomaly :=
  if domainOf s == "sensor" && s.attributes.device_class == some "temperature" then
    match jsParseFloat s.state with
    | some temp =>
      let unit := jsOrStr s.attributes.unit_of_measurement "Â°C"
      let isCelsius := jsIncludes unit "C"
      let normalMin : ℚ := if isCelsius then -10 else 14
      let normalMax : ℚ := if isCelsius then 50 else 122
      if temp < normalMin || normalMax < temp then
        some ⟨s.entity_id, "Unusual temperature: " ++ s.state ++ unit, "warning"⟩
      else none
    | none => none
  else none

/-- `detectAnomaly`, humidity rule. -/
def anomalyHumidity (s : EntityState) : Option Anomaly :=
  if domainOf s == "sensor" && s.attributes.device_class == some "humidity" then
    match jsParseFloat s.state with
    | some humidity =>
      if humidity < 10 || 95 < humidity then
        some ⟨s.entity_id, "Unusual humidity: " ++ s.state ++ "%", "warning"⟩
      else none
    | none => none
  else none

/-- Guard of the door/window rule: `binary_sensor` of device class
`door` or `window` whose state is `"on"`. -/
def doorWindowGuard (s : EntityState) : Bool :=
  domainOf s == "binary_sensor" &&
    (s.attributes.device_class == some "door" || s.attributes.device_class == some "window") &&
    s.state == "on"

/-- `detectAnomaly`, door/window-open rule; reads `Date.now()`. -/
def anomalyDoorWindow (s : EntityState) (t : JsTime) : Option Anomaly :=
  if doorWindowGuard s then
    match s.last_changed with
    | some ms =>
      let hoursOpen : ℚ := ((t.nowMs - ms : Int) : ℚ) / (1000 * 60 * 60)
      if 4 < hoursOpen then
        some ⟨s.entity_id, "Open for " ++ toFixed1 hoursOpen ++ " hours", "info"⟩
      else none
    | none => none
  else none

/-- Guard of the light-during-day rule: a `light` whose state is `"on"`. -/
def lightOnGuard (s : EntityState) : Bool :=
  domainOf s == "light" && s.state == "on"

/-- `detectAnomaly`, light-during-day rule; reads `new Date().getHours()`. -/
def anomalyLightDay (s : EntityState) (t : JsTime) : Option Anomaly :=
  if lightOnGuard s then
    if 10 ≤ t.hour && t.hour ≤ 16 then
      some ⟨s.entity_id, "Light on during daytime", "info"⟩
    else none
  else none

/-- `detectAnomaly(state)`: the five rules in source order, first match
wins (each rule is an early `return`).  The source reads the clock inside
the fourth and fifth rules; the `JsTime` argument makes those hidden
inputs explicit. -/
def detectAnomaly (s : EntityState) (t : JsTime) : Option Anomaly :=
  ((((anomalyBattery s).orElse fun _ => anomalyTemperature s).orElse fun _ =>
      anomalyHumidity s).orElse fun _ => anomalyDoorWindow s t).orElse fun _ =>
    anomalyLightDay s t

/-! ## Tool pipelines over the state list -/

/-- The optional domain filter shared by the `get_states` and
`detect_anomalies` cases:
`states.filter((s) => s.entity_id.startsWith(domain + "."))`. -/
def domainFilter (domain : Option String) (states : List EntityState) : List EntityState :=
  match domain with
  | some d => states.filter (fun s => s.entity_id.startsWith (d ++ "."))
  | none => states

/-- The comparator `(a, b) => (b.severity === "warning" ? 1 : 0) -
(a.severity === "warning" ? 1 : 0)` of the `detect_anomalies` case, as the
total preorder `c(a, b) ≤ 0`: `a` may precede `b`. -/
def warnFirst (a b : Anomaly) : Prop :=
  b.severity = "warning" → a.severity = "warning"

instance : DecidableRel warnFirst := fun a b => by
  unfold warnFirst; infer_instance

instance : IsTotal Anomaly warnFirst where
  total a b := by
    unfold warnFirst
    by_cases h : a.severity = "warning"
    · exact Or.inl fun _ => h
    · by_cases h' : b.severity = "warning"
      · exact Or.inr fun _ => h'
      · exact Or.inl fun hb => absurd hb h'

instance : IsTrans Anomaly warnFirst where
  trans _ _ _ hab hbc := fun hc => hab (hbc hc)

/-- The `detect_anomalies` tool body: optional domain filter, then
`.map(detectAnomaly).filter(Boolean)`, then the stable sort putting
`"warning"` first.  JS `Array.prototype.sort` is a stable sort, modelled
by insertion sort with respect to `warnFirst`. -/
def detectAnomaliesTool (states : List EntityState) (domain : Option String) (t : JsTime) : List Anomaly :=
  List.insertionSort warnFirst
    ((domainFilter domain states).filterMap (fun s => detectAnomaly s t))

/-- The simplified record the `get_states` case maps each state to. -/
structure SimpleState where
  entity_id : String
  state : String
  friendly_name : Option String
  device_class : Option String
deriving DecidableEq, Repr

/-- `get_states` list branch: domain filter plus simplification. -/
def simplifyState (s : EntityState) : SimpleState :=
  ⟨s.entity_id, s.state, s.attributes.friendly_name, s.attributes.device_class⟩

/-- The `get_states` tool body for the list branch (no `entity_id`
argument, no `summarize`). -/
def getStatesTool (states : List EntityState) (domain : Option String) : List SimpleState :=
  (domainFilter domain states).map simplifyState

/-! ## searchEntities -/

/-- The text searched for each state:
`[entity_id, friendly_name || "", device_class || "", state].join(" ").toLowerCase()`. -/
def searchText (s : EntityState) : String :=
  (String.intercalate " " [s.entity_id, jsOrStr s.attributes.friendly_name "",
    jsOrStr s.attributes.device_class "", s.state]).toLower

/-- Score contribution of one query term: `+1` if the searchable text
contains it, a further `+2` if the lower-cased friendly name does and a
further `+1` if the raw entity id does (the source checks the raw id). -/
def termScore (s : EntityState) (term : String) : Nat :=
  if jsIncludes (searchText s) term then
    1 + (if jsIncludes (jsOrStr s.attributes.friendly_name "").toLower term then 2 else 0)
      + (if jsIncludes s.entity_id term then 1 else 0)
  else 0

/-- Total score of a state: the loop `for (const term of terms)`. -/
def scoreOf (s : EntityState) (terms : List String) : Nat :=
  terms.foldl (fun acc term => acc + termScore s term) 0

/-- Comparator `(a, b) => b.score - a.score` as the preorder `c(a, b) ≤ 0`. -/
def scoreDesc (a b : EntityState × Nat) : Prop := b.2 ≤ a.2

instance : DecidableRel scoreDesc := fun a b => by
  unfold scoreDesc; infer_instance

instance : IsTotal (EntityState × Nat) scoreDesc where
  total a b := Nat.le_total b.2 a.2

instance : IsTrans (EntityState × Nat) scoreDesc where
  trans _ _ _ hab hbc := Nat.le_trans hbc hab

/-- `searchEntities` up to (and including) `.slice(0, 20)`, keeping each
kept state paired with its score: score every state, keep scores `> 0`,
stable-sort by descending score, take the first 20. -/
def searchKept (states : List EntityState) (query : String) : List (EntityState × Nat) :=
  let terms := jsSplitWs query.toLower
  (List.insertionSort scoreDesc
      ((states.map (fun s => (s, scoreOf s terms))).filter (fun p => decide (0 < p.2)))).take 20

/-- One record of the `searchEntities` result. -/
structure SearchResult where
  entity_id : String
  state : String
  friendly_name : Option String
  device_class : Option String
  score : Nat
deriving DecidableEq, Repr

/-- `searchEntities(states, query)`. -/
def searchEntities (states : List EntityState) (query : String) : List SearchResult :=
  (searchKept states query).map (fun p =>
    ⟨p.1.entity_id, p.1.state, p.1.attributes.friendly_name,
     p.1.attributes.device_class, p.2⟩)

/-! ## getEntityRelationships -/

/-- One element of `related_entities`. -/
structure RelatedEntity where
  entity_id : String
  friendly_name : Option String
  state : String
  relationship : String
deriving DecidableEq, Repr

/-- The success payload of `getEntityRelationships`. -/
structure EntityDetails where
  entity_id : String
  friendly_name : Option String
  state : String
  domain : String
  device_class : Option String
  device_id : Option String
  area_id : Option String
  related_entities : List RelatedEntity
deriving DecidableEq, Repr

/-- `getEntityRelationships` returns either `{ error: "Entity not found" }`
or the details object. -/
inductive RelResult where
  | err (msg : String)
  | ok (details : EntityDetails)
deriving DecidableEq, Repr

/-- The `related` filter: drop the queried entity itself, keep states
sharing a truthy `device_id` or a truthy `area_id` with it. -/
def relatedCandidates (states : List EntityState) (entityId : String)
    (deviceId areaId : Option String) : List EntityState :=
  states.filter fun s =>
    if s.entity_id == entityId then false
    else if jsTruthyOptStr deviceId && s.attributes.device_id == deviceId then true
    else if jsTruthyOptStr areaId && s.attributes.area_id == areaId then true
    else false

/-- The `related` map: `relationship` is `"same_device"` exactly when the
candidate's `device_id` strictly equals the queried entity's (JS `===`,
with `undefined === undefined` true, modelled by `Option` equality). -/
def mkRelated (deviceId : Option String) (s : EntityState) : RelatedEntity :=
  ⟨s.entity_id, s.attributes.friendly_name, s.state,
   if s.attributes.device_id == deviceId then "same_device" else "same_area"⟩

/-- `getEntityRelationships(entityId)`.  The source fetches the state list
via `callHA("/states")`; the embedding takes it as the `states` argument. -/
def getEntityRelationships (states : List EntityState) (entityId : String) : RelResult :=
  match states.find? (fun s => s.entity_id == entityId) with
  | none => .err "Entity not found"
  | some entity =>
    let deviceId := entity.attributes.device_id
    let areaId := entity.attributes.area_id
    .ok ⟨entityId, entity.attributes.friendly_name, entity.state,
      String.mk (entityId.data.takeWhile (fun c => c ≠ '.')),
      entity.attributes.device_class, deviceId, areaId,
      ((relatedCandidates states entityId deviceId areaId).map (mkRelated deviceId)).take 10⟩

/-! ## Deprecation patterns

The ten `DEPRECATION_PATTERNS` regexes use only literals, `\s*`, `\n`,
`-?`, a final `(?:a|b|c)` alternation and the `m` flag (`^` at line
starts).  They are embedded as sequences of `RAtom`; the one trailing
alternation is expanded into alternative atom sequences, which preserves
`test` (a regex matches `R(?:a|b|c)` somewhere iff it matches `Ra`, `Rb`
or `Rc` somewhere).  None carries the `g` flag, so `test` reads no
`lastIndex` state. -/

/-- One atom of a deprecation regex: a literal, `\s*`, or an optional
literal (`-?`). -/
inductive RAtom where
  | lit (s : String)
  | wsStar
  | opt (s : String)
deriving DecidableEq, Repr

/-- Backtracking matcher: do the atoms match a prefix of `cs`?  `\s*` may
consume any number of whitespace characters (the disjunction explores
every split, as regex backtracking does). -/
def matchAtoms : List RAtom → List Char → Bool
  | [], _ => true
  | .lit s :: as, cs => s.data.isPrefixOf cs && matchAtoms as (cs.drop s.data.length)
  | .opt s :: as, cs =>
    matchAtoms as cs || (s.data.isPrefixOf cs && matchAtoms as (cs.drop s.data.length))
  | .wsStar :: as, [] => matchAtoms as []
  | .wsStar :: as, c :: cs =>
    matchAtoms as (c :: cs) || (jsWs c && matchAtoms (.wsStar :: as) cs)
termination_by as cs => (as.length, cs.length)
decreasing_by
  all_goals simp_wf
  all_goals first
  | exact Prod.Lex.left _ _ (Nat.lt_succ_self _)
  | exact Prod.Lex.right _ (Nat.lt_succ_self _)

/-- Unanchored `test`: try the atoms at every position. -/
def anySuffix (as : List RAtom) : List Char → Bool
  | [] => matchAtoms as []
  | c :: cs => matchAtoms as (c :: cs) || anySuffix as cs

/-- Positions after a newline (`^` with the `m` flag, except position 0). -/
def afterNewline (as : List RAtom) : List Char → Bool
  | [] => false
  | c :: cs => (c = '\n' && matchAtoms as cs) || afterNewline as cs

/-- `^`-anchored multiline `test`: try position 0 and every position
following a newline. -/
def anyLineStart (as : List RAtom) (cs : List Char) : Bool :=
  matchAtoms as cs || afterNewline as cs

/-- One entry of `DEPRECATION_PATTERNS`. -/
structure DepPattern where
  anchored : Bool
  alts : List (List RAtom)
  message : String
  suggestion : Option String
  integration : Option String
  deprecated_in : Option String
  severity : Option String
deriving Repr

/-- `pattern.pattern.test(yamlConfig)`. -/
def depTest (p : DepPattern) (yaml : String) : Bool :=
  p.alts.any fun as =>
    if p.anchored then anyLineStart as yaml.data else anySuffix as yaml.data

/-- The `\s*\n\s*-?\s*platform:\s*` middle shared by the platform-style
patterns. -/
def platformTail (lead tail : String) : List RAtom :=
  [.lit lead, .wsStar, .lit "\n", .wsStar, .opt "-", .wsStar, .lit "platform:", .wsStar, .lit tail]

/-- `DEPRECATION_PATTERNS`, in source order.  Brace characters in the
suggestion strings are written with `\x7b`/`\x7d` escapes. -/
def DEPRECATION_PATTERNS : List DepPattern := [
  ⟨true, [platformTail "sensor:" "template"],
    "Legacy template sensor syntax detected. Use top-level 'template:' key instead.",
    some "template:\n  - sensor:\n      - name: \"My Sensor\"\n        state: \"\x7b\x7b states('...') \x7d\x7d\"",
    some "template", some "2024.1", none⟩,
  ⟨true, [platformTail "binary_sensor:" "template"],
    "Legacy template binary_sensor syntax detected. Use top-level 'template:' key instead.",
    some "template:\n  - binary_sensor:\n      - name: \"My Sensor\"\n        state: \"\x7b\x7b is_state('...', 'on') \x7d\x7d\"",
    some "template", some "2024.1", none⟩,
  ⟨false, [[.lit "entity_namespace:"]],
    "'entity_namespace' is deprecated. Use 'unique_id' for entity identification instead.",
    some "Remove entity_namespace and add unique_id to each entity.",
    none, some "2023.8", none⟩,
  ⟨true, [[.wsStar, .lit "-", .wsStar, .lit "platform:", .wsStar, .lit "time_date"]],
    "The time_date sensor platform is deprecated.",
    some "Use template sensors with now() or built-in date/time entities.",
    some "time_date", some "2024.6", none⟩,
  ⟨false, [[.lit "automation:", .wsStar, .lit "\n", .wsStar, .opt "-", .wsStar, .lit "alias:"]],
    "Consider using automation ID for better organization.",
    some "Add 'id: unique_automation_id' to enable UI editing and better tracking.",
    none, none, some "info"⟩,
  ⟨false, [platformTail "device_tracker:" "nmap", platformTail "device_tracker:" "netgear",
           platformTail "device_tracker:" "ping"],
    "Legacy device tracker platforms may have limited functionality.",
    some "Consider using the device_tracker integration with the UI for better device tracking.",
    none, none, some "info"⟩,
  ⟨false, [platformTail "cover:" "template"],
    "Legacy template cover syntax detected. Use top-level 'template:' key instead.",
    some "template:\n  - cover:\n      - name: \"My Cover\"\n        state: \"\x7b\x7b ... \x7d\x7d\"",
    some "template", some "2024.1", none⟩,
  ⟨false, [platformTail "switch:" "template"],
    "Legacy template switch syntax detected. Consider using top-level 'template:' key.",
    some "template:\n  - switch:\n      - name: \"My Switch\"\n        state: \"\x7b\x7b ... \x7d\x7d\"",
    some "template", some "2024.4", none⟩,
  ⟨false, [[.lit "homeassistant:", .wsStar, .lit "\n", .wsStar, .lit "customize:"]],
    "Entity customizations in configuration.yaml work but UI customizations are preferred.",
    some "Consider using the UI (Settings -> Devices & Services -> Entities) for customizations.",
    none, none, some "info"⟩,
  ⟨true, [[.wsStar, .lit "white_value:"]],
    "'white_value' is deprecated in light services.",
    some "Use 'white' instead of 'white_value' in light service calls.",
    none, some "2023.3", none⟩]

/-- The `continue` guard:
`integration && pattern.integration && pattern.integration !== integration`. -/
def depSkip (integ : Option String) (p : DepPattern) : Bool :=
  jsTruthyOptStr integ && jsTruthyOptStr p.integration && !(p.integration == integ)

/-- The `(deprecated, warnings, suggestions)` result. -/
structure CheckResult where
  deprecated : Bool
  warnings : List String
  suggestions : List String
deriving DecidableEq, Repr

/-- The warning line pushed for a matching pattern. -/
def warningText (p : DepPattern) : String :=
  match p.deprecated_in with
  | some v => "[DEPRECATED since " ++ v ++ "] " ++ p.message
  | none => "[INFO] " ++ p.message

/-- The loop of `checkConfigForDeprecations` over a pattern list:
skip non-relevant patterns, and for each matching one accumulate the
deprecated flag, the warning and (when truthy) the suggestion. -/
def checkCore (integ : Option String) (yaml : String) : List DepPattern → CheckResult
  | [] => ⟨false, [], []⟩
  | p :: ps =>
    let r := checkCore integ yaml ps
    if depSkip integ p then r
    else if depTest p yaml then
      ⟨p.deprecated_in.isSome || r.deprecated,
       warningText p :: r.warnings,
       if jsTruthyOptStr p.suggestion then jsOrStr p.suggestion "" :: r.suggestions
       else r.suggestions⟩
    else r

/-- `checkConfigForDeprecations(yamlConfig, integration)`. -/
def checkConfigForDeprecations (yaml : String) (integration : Option String) : CheckResult :=
  checkCore integration yaml DEPRECATION_PATTERNS

/-! ## Server state, SetLevel and CallTool -/

/-- The module's only `let` binding: `currentLogLevel`. -/
structure ServerState where
  currentLogLevel : String
deriving DecidableEq, Repr

/-- `LOG_LEVELS`. -/
def LOG_LEVELS : List String :=
  ["debug", "info", "notice", "warning", "error", "critical", "alert", "emergency"]

/-- The `SetLevel` request handler: on a known level, assign
`currentLogLevel` and return `{}` (modelled `Unit`); otherwise throw
before any assignment. -/
def setLevelHandler (level : String) (st : ServerState) : Except String Unit × ServerState :=
  if LOG_LEVELS.contains level then (Except.ok (), ⟨level⟩)
  else (Except.error ("Invalid log level: " ++ level), st)

/-- The eight request handlers the server registers. -/
inductive RequestHandler where
  | setLevel
  | listTools
  | callTool
  | listResources
  | listResourceTemplates
  | readResource
  | listPrompts
  | getPrompt
deriving DecidableEq, Repr

/-- Effect of each handler on the module-level mutable state.  Other than
the `SetLevel` body (`currentLogLevel = level`), no handler body in the
source contains an assignment to `currentLogLevel` (nor any other
module-level binding to assign to), so every other handler's state
transformer is the identity.  `param` is the request's relevant string
(the level for `SetLevel`). -/
def handlerStateEffect : RequestHandler → String → ServerState → ServerState
  | .setLevel, param, st => (setLevelHandler param st).2
  | .listTools, _, st => st
  | .callTool, _, st => st
  | .listResources, _, st => st
  | .listResourceTemplates, _, st => st
  | .readResource, _, st => st
  | .listPrompts, _, st => st
  | .getPrompt, _, st => st

/-- The 22 tool names of the `CallTool` switch (equal to the `TOOLS`
declarations). -/
def toolNames : List String :=
  ["get_states", "search_entities", "get_entity_details", "call_service",
   "get_services", "get_history", "get_logbook", "get_config", "get_areas",
   "get_devices", "validate_config", "get_error_log", "fire_event",
   "render_template", "get_calendars", "get_calendar_events",
   "detect_anomalies", "get_suggestions", "diagnose_entity",
   "get_integration_docs", "get_breaking_changes", "check_config_syntax"]

/-- A `CallTool` response after `makeCompatibleResponse`: the content
texts and the `isError` flag. -/
structure ToolResponse where
  contentTexts : List String
  isError : Bool
deriving DecidableEq, Repr

/-- The switch of the `CallTool` handler: a known tool's case body runs
(`outcome` stands for whatever that body returned or threw); an unknown
name throws `Unknown tool: <name>`. -/
def dispatchTool (name : String) (outcome : Except String ToolResponse) :
    Except String ToolResponse :=
  if toolNames.contains name then outcome
  else Except.error ("Unknown tool: " ++ name)

/-- The whole `CallTool` handler: the single try/catch around the switch
turns any thrown error into a text `Error: <message>` response with
`isError: true`.  Its total return type is how "no exception escapes" is
expressed. -/
def callToolHandler (name : String) (outcome : Except String ToolResponse) : ToolResponse :=
  match dispatchTool name outcome with
  | .ok r => r
  | .error msg => ⟨["Error: " ++ msg], true⟩

/-! ## Outbound API calls per tool -/

/-- An outbound HTTP call: to the Supervisor API (`callHA`, base
`http://supervisor/core/api`) or to the documentation site (`fetchUrl`,
base `https://www.home-assistant.io`).  Endpoints are modelled by their
fixed path stems; interpolated arguments and query strings are elided —
the claims concern only which API each call targets. -/
inductive ApiCall where
  | supervisor (endpoint : String)
  | docs (url : String)
deriving DecidableEq, Repr

/-- Does a call target the Supervisor API? -/
def ApiCall.isSupervisor : ApiCall → Bool
  | .supervisor _ => true
  | .docs _ => false

/-- The only tool argument that changes which calls a handler makes:
`get_states` hits `/states/<id>` instead of `/states` when `entity_id`
is present. -/
structure ToolArgs where
  entity_id : Option String
deriving DecidableEq, Repr

/-- The outbound calls each tool's case body performs on its success
path, in order (`none` for an unknown tool).  `diagnose_entity` calls
`/states/<id>`, then `/states` via `getEntityRelationships`, then the
history endpoint; the two documentation tools first fetch `/config` via
`callHA` and then fetch the docs site. -/
def toolApiCalls (name : String) (args : ToolArgs) : Option (List ApiCall) :=
  match name with
  | "get_states" =>
    some (match args.entity_id with
      | some _ => [.supervisor "/states/"]
      | none => [.supervisor "/states"])
  | "search_entities" => some [.supervisor "/states"]
  | "get_entity_details" => some [.supervisor "/states"]
  | "call_service" => some [.supervisor "/services/"]
  | "get_services" => some [.supervisor "/services"]
  | "get_history" => some [.supervisor "/history/period/"]
  | "get_logbook" => some [.supervisor "/logbook/"]
  | "get_config" => some [.supervisor "/config"]
  | "get_areas" => some [.supervisor "/template"]
  | "get_devices" => some [.supervisor "/template"]
  | "validate_config" => some [.supervisor "/config/core/check_config"]
  | "get_error_log" => some [.supervisor "/error_log"]
  | "fire_event" => some [.supervisor "/events/"]
  | "render_template" => some [.supervisor "/template"]
  | "get_calendars" => some [.supervisor "/calendars"]
  | "get_calendar_events" => some [.supervisor "/calendars/"]
  | "detect_anomalies" => some [.supervisor "/states"]
  | "get_suggestions" => some [.supervisor "/states"]
  | "diagnose_entity" =>
    some [.supervisor "/states/", .supervisor "/states", .supervisor "/history/period/"]
  | "get_integration_docs" =>
    some [.supervisor "/config", .docs "https://www.home-assistant.io/integrations"]
  | "get_breaking_changes" =>
    some [.supervisor "/config", .docs "https://www.home-assistant.io/blog"]
  | "check_config_syntax" => some []
  | _ => none

/-- Claim C4 as stated: every tool handler makes at least one Supervisor
call and calls no other API. -/
def C4Claim : Prop :=
  ∀ name ∈ toolNames, ∀ args : ToolArgs,
    ∃ tr, toolApiCalls name args = some tr ∧
      (∃ c ∈ tr, c.isSupervisor = true) ∧ (∀ c ∈ tr, c.isSupervisor = true)

/-! ## Theorems -/

/-- A light that is on: the fifth rule fires and reads the hour. -/
def cexLight : EntityState :=
  ⟨"light.desk_lamp", "on", ⟨none, none, none, none, none, none⟩, none⟩

/-- A state reaching none of the two clock-reading rules. -/
def witSwitch : EntityState :=
  ⟨"switch.fan", "off", ⟨none, none, some 50, none, none, none⟩, none⟩

/-- C1 counterexample: `detectAnomaly` is not a function of the entity
state alone — on a light that is on, an evaluation at noon (hour 12)
reports an anomaly while one at 20:00 does not. -/
theorem detectAnomaly_not_time_independent :
    detectAnomaly cexLight ⟨0, 12⟩ ≠ detectAnomaly cexLight ⟨0, 20⟩ := by
  decide

theorem anomalyDoorWindow_none (s : EntityState) (t : JsTime)
    (h : doorWindowGuard s = false) : anomalyDoorWindow s t = none := by
  simp [anomalyDoorWindow, h]

theorem anomalyLightDay_none (s : EntityState) (t : JsTime)
    (h : lightOnGuard s = false) : anomalyLightDay s t = none := by
  simp [anomalyLightDay, h]

/-- C1 amended: `detectAnomaly` depends on the entity state and on the
wall clock, which only its door/window-open-duration rule and its
light-during-day rule read; for every entity state that is neither an
`"on"` door/window binary_sensor nor an `"on"` light, two evaluations at
different times produce the same result. -/
theorem detectAnomaly_time_independent_off_clock_rules (s : EntityState)
    (t₁ t₂ : JsTime) (hdw : doorWindowGuard s = false)
    (hl : lightOnGuard s = false) :
    detectAnomaly s t₁ = detectAnomaly s t₂ := by
  unfold detectAnomaly
  rw [anomalyDoorWindow_none s t₁ hdw, anomalyDoorWindow_none s t₂ hdw,
    anomalyLightDay_none s t₁ hl, anomalyLightDay_none s t₂ hl]

/-- Witness for the C1 amended theorem at a concrete state and two
concrete times. -/
theorem detectAnomaly_time_independent_off_clock_rules_witness :
    doorWindowGuard witSwitch = false ∧ lightOnGuard witSwitch = false ∧
      detectAnomaly witSwitch ⟨0, 3⟩ = detectAnomaly witSwitch ⟨500000000, 23⟩ :=
  ⟨by decide, by decide,
    detectAnomaly_time_independent_off_clock_rules witSwitch ⟨0, 3⟩
      ⟨500000000, 23⟩ (by decide) (by decide)⟩

/-- C2: every request handler other than `SetLevel` leaves the module's
only mutable binding `currentLogLevel` unchanged. -/
theorem handlers_preserve_log_level (h : RequestHandler)
    (hne : h ≠ RequestHandler.setLevel) (param : String) (st : ServerState) :
    handlerStateEffect h param st = st := by
  cases h
  case setLevel => exact absurd rfl hne
  all_goals rfl

/-- Witness for C2 at the `CallTool` handler. -/
theorem handlers_preserve_log_level_witness :
    RequestHandler.callTool ≠ RequestHandler.setLevel ∧
      handlerStateEffect RequestHandler.callTool "emergency" ⟨"info"⟩ = ⟨"info"⟩ :=
  ⟨by decide,
    handlers_preserve_log_level RequestHandler.callTool (by decide) "emergency" ⟨"info"⟩⟩

/-- C10: the `SetLevel` handler is atomic on error — one of the eight
known levels is assigned to `currentLogLevel` with an empty result, and
any other level throws `Invalid log level: <level>` leaving the state
unchanged. -/
theorem setLevel_atomic (level : String) (st : ServerState) :
    (level ∈ LOG_LEVELS →
      setLevelHandler level st = (Except.ok (), ⟨level⟩)) ∧
    (level ∉ LOG_LEVELS →
      setLevelHandler level st = (Except.error ("Invalid log level: " ++ level), st)) ∧
    LOG_LEVELS.length = 8 := by
  refine ⟨fun hmem => ?_, fun hnmem => ?_, rfl⟩
  · simp [setLevelHandler, hmem]
  · simp [setLevelHandler, hnmem]

/-- C6: the `CallTool` handler's single try/catch — a thrown error from a
dispatched tool body becomes a `Error: <message>` text response with
`isError` set, nothing escapes (`callToolHandler` is total), and an
unknown tool name yields the error response for `Unknown tool: <name>`. -/
theorem callTool_error_handling (name : String)
    (outcome : Except String ToolResponse) :
    (∀ e, dispatchTool name outcome = Except.error e →
      callToolHandler name outcome = ⟨["Error: " ++ e], true⟩) ∧
    (∀ e, outcome = Except.error e → name ∈ toolNames →
      callToolHandler name outcome = ⟨["Error: " ++ e], true⟩) ∧
    (name ∉ toolNames →
      callToolHandler name outcome =
        ⟨["Error: " ++ ("Unknown tool: " ++ name)], true⟩) := by
  refine ⟨fun e he => ?_, fun e hout hmem => ?_, fun hnmem => ?_⟩
  · simp [callToolHandler, he]
  · simp [callToolHandler, dispatchTool, hout, hmem]
  · simp [callToolHandler, dispatchTool, hnmem]

/-- C3: the `detect_anomalies` pipeline is a single-pass scan — its
output is a permutation of the non-null `detectAnomaly` results of the
(optionally domain-filtered) states, one record per anomalous state and
nothing else, and every `"warning"`-severity record precedes every record
of any other severity. -/
theorem detect_anomalies_single_pass (states : List EntityState)
    (domain : Option String) (t : JsTime) :
    (detectAnomaliesTool states domain t).Perm
        ((domainFilter domain states).filterMap (fun s => detectAnomaly s t)) ∧
    (detectAnomaliesTool states domain t).Pairwise warnFirst :=
  ⟨List.perm_insertionSort warnFirst _, List.sorted_insertionSort warnFirst _⟩

theorem anomalyBattery_entity_id (s : EntityState) (a : Anomaly)
    (h : anomalyBattery s = some a) : a.entity_id = s.entity_id := by
  unfold anomalyBattery at h
  repeat' split at h
  all_goals first | (cases h; rfl) | cases h

theorem anomalyTemperature_entity_id (s : EntityState) (a : Anomaly)
    (h : anomalyTemperature s = some a) : a.entity_id = s.entity_id := by
  unfold anomalyTemperature at h
  repeat' split at h
  all_goals first
  | (cases h; rfl)
  | cases h
  | (simp only [Option.ite_none_right_eq_some, Option.some.injEq] at h;
     obtain ⟨-, rfl⟩ := h; rfl)

theorem anomalyHumidity_entity_id (s : EntityState) (a : Anomaly)
    (h : anomalyHumidity s = some a) : a.entity_id = s.entity_id := by
  unfold anomalyHumidity at h
  repeat' split at h
  all_goals first | (cases h; rfl) | cases h

theorem anomalyDoorWindow_entity_id (s : EntityState) (t : JsTime) (a : Anomaly)
    (h : anomalyDoorWindow s t = some a) : a.entity_id = s.entity_id := by
  unfold anomalyDoorWindow at h
  repeat' split at h
  all_goals first
  | (cases h; rfl)
  | cases h
  | (simp only [Option.ite_none_right_eq_some, Option.some.injEq] at h;
     obtain ⟨-, rfl⟩ := h; rfl)

theorem anomalyLightDay_entity_id (s : EntityState) (t : JsTime) (a : Anomaly)
    (h : anomalyLightDay s t = some a) : a.entity_id = s.entity_id := by
  unfold anomalyLightDay at h
  repeat' split at h
  all_goals first | (cases h; rfl) | cases h

/-- Every anomaly record carries the id of the entity it was computed
from. -/
theorem detectAnomaly_entity_id (s : EntityState) (t : JsTime) (a : Anomaly)
    (h : detectAnomaly s t = some a) : a.entity_id = s.entity_id := by
  unfold detectAnomaly at h
  rw [Option.orElse_eq_some'] at h
  rcases h with h | ⟨-, h⟩
  · rw [Option.orElse_eq_some'] at h
    rcases h with h | ⟨-, h⟩
    · rw [Option.orElse_eq_some'] at h
      rcases h with h | ⟨-, h⟩
      · rw [Option.orElse_eq_some'] at h
        rcases h with h | ⟨-, h⟩
        · exact anomalyBattery_entity_id s a h
        · exact anomalyTemperature_entity_id s a h
      · exact anomalyHumidity_entity_id s a h
    · exact anomalyDoorWindow_entity_id s t a h
  · exact anomalyLightDay_entity_id s t a h

/-- C7: the domain argument filters by the entity-id prefix — both tools
keep exactly the states whose `entity_id` starts with `domain + "."`, and
everything they return stems from such states. -/
theorem domain_filter_spec (states : List EntityState) (d : String) (t : JsTime) :
    (∀ r ∈ getStatesTool states (some d), r.entity_id.startsWith (d ++ ".") = true) ∧
    (∀ s ∈ states, s.entity_id.startsWith (d ++ ".") = true →
      simplifyState s ∈ getStatesTool states (some d)) ∧
    (∀ a ∈ detectAnomaliesTool states (some d) t,
      a.entity_id.startsWith (d ++ ".") = true) ∧
    (∀ s ∈ states, s.entity_id.startsWith (d ++ ".") = true →
      s ∈ domainFilter (some d) states) := by
  refine ⟨?_, ?_, ?_, ?_⟩
  · intro r hr
    unfold getStatesTool domainFilter at hr
    obtain ⟨s, hs, rfl⟩ := List.mem_map.mp hr
    exact (List.mem_filter.mp hs).2
  · intro s hs hsw
    unfold getStatesTool domainFilter
    exact List.mem_map_of_mem _ (List.mem_filter.mpr ⟨hs, hsw⟩)
  · intro a ha
    unfold detectAnomaliesTool at ha
    have ha2 := (List.perm_insertionSort warnFirst _).mem_iff.mp ha
    obtain ⟨s, hs, hda⟩ := List.mem_filterMap.mp ha2
    unfold domainFilter at hs
    rw [detectAnomaly_entity_id s t a hda]
    exact (List.mem_filter.mp hs).2
  · intro s hs hsw
    unfold domainFilter
    exact List.mem_filter.mpr ⟨hs, hsw⟩

theorem checkCore_deprecated_iff (integ : Option String) (yaml : String)
    (ps : List DepPattern) :
    (checkCore integ yaml ps).deprecated = true ↔
      ∃ p ∈ ps, depSkip integ p = false ∧ depTest p yaml = true ∧
        p.deprecated_in.isSome = true := by
  induction ps with
  | nil => simp [checkCore]
  | cons p ps ih =>
    by_cases hskip : depSkip integ p
    · rw [show checkCore integ yaml (p :: ps) = checkCore integ yaml ps by
        simp [checkCore, hskip]]
      rw [ih]
      constructor
      · rintro ⟨q, hq, hprops⟩
        exact ⟨q, List.mem_cons_of_mem _ hq, hprops⟩
      · rintro ⟨q, hq, h1, h2, h3⟩
        rcases List.mem_cons.mp hq with rfl | hq'
        · rw [hskip] at h1; cases h1
        · exact ⟨q, hq', h1, h2, h3⟩
    · by_cases htest : depTest p yaml
      · rw [show (checkCore integ yaml (p :: ps)).deprecated
            = (p.deprecated_in.isSome || (checkCore integ yaml ps).deprecated) by
          simp [checkCore, hskip, htest]]
        rw [Bool.or_eq_true, ih]
        constructor
        · rintro (hdep | ⟨q, hq, hprops⟩)
          · exact ⟨p, List.mem_cons_self _ _,
              Bool.not_eq_true _ ▸ (by simp [hskip]), by simp [htest], hdep⟩
          · exact ⟨q, List.mem_cons_of_mem _ hq, hprops⟩
        · rintro ⟨q, hq, h1, h2, h3⟩
          rcases List.mem_cons.mp hq with rfl | hq'
          · exact Or.inl h3
          · exact Or.inr ⟨q, hq', h1, h2, h3⟩
      · rw [show checkCore integ yaml (p :: ps) = checkCore integ yaml ps by
          simp [checkCore, hskip, htest]]
        rw [ih]
        constructor
        · rintro ⟨q, hq, hprops⟩
          exact ⟨q, List.mem_cons_of_mem _ hq, hprops⟩
        · rintro ⟨q, hq, h1, h2, h3⟩
          rcases List.mem_cons.mp hq with rfl | hq'
          · rw [show depTest q yaml = false by simpa using htest] at h2; cases h2
          · exact ⟨q, hq', h1, h2, h3⟩

theorem checkCore_filter_skip (integ : Option String) (yaml : String)
    (ps : List DepPattern) :
    checkCore integ yaml (ps.filter (fun p => !depSkip integ p)) =
      checkCore integ yaml ps := by
  induction ps with
  | nil => rfl
  | cons p ps ih =>
    by_cases hskip : depSkip integ p
    · rw [show (p :: ps).filter (fun p => !depSkip integ p)
          = ps.filter (fun p => !depSkip integ p) by simp [List.filter, hskip]]
      rw [ih]
      simp [checkCore, hskip]
    · rw [show (p :: ps).filter (fun p => !depSkip integ p)
          = p :: ps.filter (fun p => !depSkip integ p) by
        simp [List.filter, hskip]]
      simp only [checkCore, ih]

/-- C5: the deprecation checker is a pure function of its two arguments
(none of its regexes carries the `g` flag, so no `lastIndex` state feeds
in — the embedding needed no state or clock parameter, and two runs are
definitionally equal); its `deprecated` flag is true exactly when some
non-skipped pattern with a `deprecated_in` field matches; and with an
integration given, it equals the run over the patterns whose integration
tag does not differ. -/
theorem checkConfigForDeprecations_spec (yaml : String) (integ : Option String) :
    (checkConfigForDeprecations yaml integ = checkConfigForDeprecations yaml integ) ∧
    ((checkConfigForDeprecations yaml integ).deprecated = true ↔
      ∃ p ∈ DEPRECATION_PATTERNS, depSkip integ p = false ∧ depTest p yaml = true ∧
        p.deprecated_in.isSome = true) ∧
    (∀ i : String, checkConfigForDeprecations yaml (some i) =
      checkCore (some i) yaml
        (DEPRECATION_PATTERNS.filter (fun p => !depSkip (some i) p))) :=
  ⟨rfl, checkCore_deprecated_iff integ yaml DEPRECATION_PATTERNS,
    fun i => (checkCore_filter_skip (some i) yaml DEPRECATION_PATTERNS).symm⟩

theorem termScore_eq_zero (s : EntityState) (term : String)
    (h : jsIncludes (searchText s) term = false) : termScore s term = 0 := by
  simp [termScore, h]

theorem scoreOf_eq_of_all_zero (s : EntityState) (terms : List String) (acc : Nat)
    (h : ∀ term ∈ terms, termScore s term = 0) :
    terms.foldl (fun a term => a + termScore s term) acc = acc := by
  induction terms generalizing acc with
  | nil => rfl
  | cons tm tms ih =>
    simp only [List.foldl]
    rw [h tm (List.mem_cons_self _ _), Nat.add_zero]
    exact ih _ (fun q hq => h q (List.mem_cons_of_mem _ hq))

/-- Every kept pair is a state of the input together with its computed
score, and that score is positive. -/
theorem searchKept_mem (states : List EntityState) (query : String)
    (p : EntityState × Nat) (hp : p ∈ searchKept states query) :
    p.1 ∈ states ∧ p.2 = scoreOf p.1 (jsSplitWs query.toLower) ∧ 0 < p.2 := by
  unfold searchKept at hp
  have hp2 := (List.perm_insertionSort scoreDesc _).mem_iff.mp
    (List.take_subset _ _ hp)
  have hp3 := List.mem_filter.mp hp2
  obtain ⟨s, hs, hq⟩ := List.mem_map.mp hp3.1
  refine ⟨?_, ?_, of_decide_eq_true hp3.2⟩
  · rw [← hq]; exact hs
  · rw [← hq]

/-- C8: `searchEntities` returns at most 20 records, each with a strictly
positive score, in non-increasing score order, and no record stems from a
state whose searchable text contains none of the query's
whitespace-separated lower-cased terms. -/
theorem searchEntities_spec (states : List EntityState) (query : String) :
    (searchEntities states query).length ≤ 20 ∧
    (∀ r ∈ searchEntities states query, 0 < r.score) ∧
    (searchEntities states query).Pairwise (fun a b => b.score ≤ a.score) ∧
    (∀ s ∈ states,
      (∀ term ∈ jsSplitWs query.toLower, jsIncludes (searchText s) term = false) →
      ∀ p ∈ searchKept states query, p.1 ≠ s) := by
  refine ⟨?_, ?_, ?_, ?_⟩
  · unfold searchEntities searchKept
    rw [List.length_map, List.length_take]
    exact min_le_left _ _
  · intro r hr
    obtain ⟨p, hp, rfl⟩ := List.mem_map.mp hr
    exact (searchKept_mem states query p hp).2.2
  · unfold searchEntities searchKept
    refine (List.pairwise_map).mpr ?_
    refine List.Pairwise.sublist (List.take_sublist _ _) ?_
    exact List.sorted_insertionSort scoreDesc _
  · intro s hs hnone p hp heq
    obtain ⟨-, hscore, hpos⟩ := searchKept_mem states query p hp
    rw [heq] at hscore
    have hzero : scoreOf s (jsSplitWs query.toLower) = 0 :=
      scoreOf_eq_of_all_zero s _ 0
        (fun term hterm => termScore_eq_zero s term (hnone term hterm))
    rw [hscore, hzero] at hpos
    exact Nat.lt_irrefl 0 hpos

theorem relatedCandidates_sound (states : List EntityState) (entityId : String)
    (deviceId areaId : Option String) (s : EntityState)
    (hs : s ∈ relatedCandidates states entityId deviceId areaId) :
    s ∈ states ∧ s.entity_id ≠ entityId ∧
      ((jsTruthyOptStr deviceId = true ∧ s.attributes.device_id = deviceId) ∨
       (jsTruthyOptStr areaId = true ∧ s.attributes.area_id = areaId)) := by
  unfold relatedCandidates at hs
  obtain ⟨hmem, hp⟩ := List.mem_filter.mp hs
  by_cases h1 : (s.entity_id == entityId) = true
  · rw [if_pos h1] at hp; cases hp
  · refine ⟨hmem, fun he => h1 (beq_iff_eq.mpr he), ?_⟩
    rw [if_neg h1] at hp
    by_cases h2 : (jsTruthyOptStr deviceId && s.attributes.device_id == deviceId) = true
    · rw [Bool.and_eq_true] at h2
      exact Or.inl ⟨h2.1, beq_iff_eq.mp h2.2⟩
    · rw [if_neg h2] at hp
      by_cases h3 : (jsTruthyOptStr areaId && s.attributes.area_id == areaId) = true
      · rw [Bool.and_eq_true] at h3
        exact Or.inr ⟨h3.1, beq_iff_eq.mp h3.2⟩
      · rw [if_neg h3] at hp; cases hp

theorem mkRelated_relationship (deviceId : Option String) (s : EntityState) :
    (mkRelated deviceId s).relationship = "same_device" ↔
      s.attributes.device_id = deviceId := by
  simp only [mkRelated]
  by_cases hdv : (s.attributes.device_id == deviceId) = true
  · rw [if_pos hdv]
    simp [beq_iff_eq.mp hdv]
  · rw [if_neg hdv]
    constructor
    · intro habs; exact absurd habs (by decide)
    · intro he; exact absurd (beq_iff_eq.mpr he) hdv

/-- C9: `getEntityRelationships` returns the `Entity not found` error for
an id absent from the state list; on success it returns at most 10
related entities, never the queried entity itself, only entities sharing
the queried entity's (truthy) `device_id` or `area_id`, labelled
`"same_device"` exactly when the candidate's `device_id` equals the
queried entity's (JS `===`, where two absent ids are equal) and
`"same_area"` otherwise. -/
theorem getEntityRelationships_spec (states : List EntityState) (entityId : String) :
    (states.find? (fun s => s.entity_id == entityId) = none →
      getEntityRelationships states entityId = RelResult.err "Entity not found") ∧
    (∀ d, getEntityRelationships states entityId = RelResult.ok d →
      d.related_entities.length ≤ 10 ∧
      ∀ r ∈ d.related_entities,
        r.entity_id ≠ entityId ∧
        ∃ s ∈ states, r = mkRelated d.device_id s ∧
          ((jsTruthyOptStr d.device_id = true ∧ s.attributes.device_id = d.device_id) ∨
           (jsTruthyOptStr d.area_id = true ∧ s.attributes.area_id = d.area_id)) ∧
          (r.relationship = "same_device" ↔ s.attributes.device_id = d.device_id)) := by
  constructor
  · intro h
    unfold getEntityRelationships
    rw [h]
  · intro d hd
    unfold getEntityRelationships at hd
    cases hfind : states.find? (fun s => s.entity_id == entityId) with
    | none => rw [hfind] at hd; cases hd
    | some entity =>
      rw [hfind] at hd
      cases hd
      constructor
      · simpa using min_le_left 10 _
      · intro r hr
        simp only at hr
        have hr2 := List.take_subset _ _ hr
        obtain ⟨s, hs, rfl⟩ := List.mem_map.mp hr2
        obtain ⟨hmem, hne, hshare⟩ :=
          relatedCandidates_sound states entityId
            entity.attributes.device_id entity.attributes.area_id s hs
        exact ⟨hne, s, hmem, rfl, hshare,
          mkRelated_relationship entity.attributes.device_id s⟩

/-- C4 counterexample: the claim fails at the concrete tool
`check_config_syntax`, whose case body performs no outbound HTTP call at
all (its body is pure string processing over `yaml_config`). -/
theorem not_every_tool_calls_supervisor : ¬ C4Claim := by
  intro h
  obtain ⟨tr, htr, hex, -⟩ := h "check_config_syntax" (by decide) ⟨none⟩
  have htr0 : toolApiCalls "check_config_syntax" ⟨none⟩ = some [] := rfl
  rw [htr0] at htr
  cases htr
  obtain ⟨c, hc, -⟩ := hex
  exact absurd hc (List.not_mem_nil c)

/-- C4 amended: every tool handler except `check_config_syntax` performs
at least one call to the Supervisor API; `check_config_syntax` performs
none; and the only handlers calling any other API are the two
documentation tools, which additionally fetch the Home Assistant docs
site. -/
theorem tool_api_calls_characterization (name : String) (args : ToolArgs)
    (hmem : name ∈ toolNames) :
    ∃ tr, toolApiCalls name args = some tr ∧
      (name ≠ "check_config_syntax" → ∃ c ∈ tr, c.isSupervisor = true) ∧
      (name = "check_config_syntax" → tr = []) ∧
      (∀ c ∈ tr, c.isSupervisor = false →
        name = "get_integration_docs" ∨ name = "get_breaking_changes") := by
  obtain ⟨eid⟩ := args
  fin_cases hmem <;> cases eid <;>
    first
    | exact ⟨[ApiCall.supervisor "/states/"], rfl, by decide, by decide, by decide⟩
    | exact ⟨[ApiCall.supervisor "/states"], rfl, by decide, by decide, by decide⟩
    | exact ⟨_, rfl, by decide, by decide, by decide⟩

/-- Witness for the C4 amended theorem at the `get_states` tool. -/
theorem tool_api_calls_characterization_witness :
    ∃ tr, toolApiCalls "get_states" ⟨none⟩ = some tr ∧
      ("get_states" ≠ "check_config_syntax" → ∃ c ∈ tr, c.isSupervisor = true) ∧
      ("get_states" = "check_config_syntax" → tr = []) ∧
      (∀ c ∈ tr, c.isSupervisor = false →
        "get_states" = "get_integration_docs" ∨
          "get_states" = "get_breaking_changes") :=
  tool_api_calls_characterization "get_states" ⟨none⟩ (by decide)

end HaMcp
